import Mathlib

/-!
Verification of the SCR.Openwisp Discovery & Telemetry Engine.

This file gives a shallow embedding, in Lean 4, of the parts of the
backend that the specification's claims talk about:

* the shell-output parsers of the metrics Collector
  (`collectMemoryInfo`, `collectCpuLoad`, `collectDiskUsage` with its
  inner `convertToBytes` helper, from `backend/src/utils/ssh.js`),
* the Collector entry point `collectMetrics` and the scheduler fan-out
  `collectAllMetrics` (from `backend/src/utils/cron.js`),
* the Scanner's job registry (`createScanJob`, `updateScanJob`,
  `startScanJob`), its probing passes (`comprehensiveSubnetScan`,
  `quickRouterScan`) and fingerprint pass (`scanForOpenWrtDevices`)
  from `backend/src/utils/scanner.js`,
* the HTTP handlers `testConnection` (router controller) and
  `addMultipleRouters` (scanner controller).

JavaScript numbers are modelled with `ℚ`/`ℤ`/`ℕ`; `Option` is used
where a JS value can be `NaN`, absent, or a non-finite number, and each
such spot is documented at the definition.  Network and shell I/O is
modelled by explicit oracle functions passed as arguments, so the pure
control flow of the source is kept intact.
-/

namespace Openwisp

/-! ## JavaScript primitives -/

/-- Characters matched by the regex class `\s` (the forms that occur in
shell output handled by this code base). -/
def isWs (c : Char) : Bool :=
  c = ' ' || c = '\t' || c = '\n' || c = '\r' || c = '\x0b' || c = '\x0c'

/-- One maximal run of non-whitespace characters, as produced by
`String.split(/\s+/)` on a trimmed string. -/
def wsTokensAux : List Char → List Char → List (List Char)
  | [], [] => []
  | [], acc => [acc.reverse]
  | c :: cs, acc =>
    if isWs c then
      match acc with
      | [] => wsTokensAux cs []
      | _ => acc.reverse :: wsTokensAux cs []
    else
      wsTokensAux cs (c :: acc)

/-- `s.trim().split(/\s+/)` for a string with no leading whitespace.
For the empty string JS returns `[""]` while this returns `[]`; both
fall in the same `length < 5` branch everywhere this is used. -/
def wsTokens (cs : List Char) : List (List Char) :=
  wsTokensAux cs []

/-- Drop the whitespace at both ends, as `String.trim()` does. -/
def jsTrim (cs : List Char) : List Char :=
  ((cs.dropWhile isWs).reverse.dropWhile isWs).reverse

/-- Numeric value of a run of decimal digits. -/
def digitsVal (cs : List Char) : ℕ :=
  cs.foldl (fun n c => 10 * n + (c.toNat - '0'.toNat)) 0

/-- JS `parseFloat` restricted to strings containing only decimal
digits and dots, which is the only way it is called in the source
(its argument is always `sizeStr.replace(/[^0-9.]/g, '')`).
The parsed value `m / 10 ^ s` is kept as the scaled pair `(m, s)` so
that every later computation stays in integer arithmetic; `none`
models `NaN`. -/
def parseFloatDD (cs : List Char) : Option (ℕ × ℕ) :=
  let intPart := cs.takeWhile Char.isDigit
  let rest := cs.drop intPart.length
  match rest with
  | '.' :: rest2 =>
    let fracPart := rest2.takeWhile Char.isDigit
    if intPart.isEmpty && fracPart.isEmpty then none
    else some (digitsVal intPart * 10 ^ fracPart.length + digitsVal fracPart, fracPart.length)
  | _ =>
    if intPart.isEmpty then none else some (digitsVal intPart, 0)

/-- Rational value denoted by a scaled decimal pair `(m, s)`. -/
def decVal (p : ℕ × ℕ) : ℚ :=
  (p.1 : ℚ) / 10 ^ p.2

/-- The digit run at the head of a string, as a number; `none` when
there is none. -/
def parseIntCore (ds : List Char) : Option ℕ :=
  if (ds.takeWhile Char.isDigit).isEmpty then none
  else some (digitsVal (ds.takeWhile Char.isDigit))

/-- JS `parseInt` in base 10: leading whitespace, an optional sign,
then a digit run; `none` models `NaN`. -/
def parseIntJS (cs : List Char) : Option ℤ :=
  match cs.dropWhile isWs with
  | [] => none
  | c :: r =>
    if c = '-' then (parseIntCore r).map (fun n => -(n : ℤ))
    else if c = '+' then (parseIntCore r).map (fun n => (n : ℤ))
    else (parseIntCore (c :: r)).map (fun n => (n : ℤ))

/-- JS `Math.round` applied to the fraction `a / b` (with `b ≠ 0`):
round half toward positive infinity, that is `⌊a / b + 1 / 2⌋`,
computed with integer floor division so that the kernel can evaluate
it.  `jround_eq` below relates it to the `⌊·⌋` form. -/
def jround (a b : ℤ) : ℤ :=
  (2 * a + b).fdiv (2 * b)

/-- ASCII uppercasing of one character, the fragment of JS
`toUpperCase()` that matters for the unit letters K/M/G/T/B. -/
def upChar (c : Char) : Char :=
  if 'a' ≤ c ∧ c ≤ 'z' then Char.ofNat (c.toNat - 32) else c

/-! ## Collector: disk usage (`collectDiskUsage` and `convertToBytes`) -/

/-- The inner helper of `collectDiskUsage`: turn a `df -h` size string
such as "98.3M" into a byte count.  Mirrors the source line by line:
empty input yields 0, the numeric part is the digits-and-dots
subsequence fed to `parseFloat`, the unit is the remaining characters
uppercased, and the switch applies the 1024-based multiplier (default:
the bare number). -/
def convertToBytes (s : List Char) : ℤ :=
  if s.isEmpty then 0
  else
    let numericChars := s.filter (fun c => c.isDigit || c = '.')
    let unit : List Char := (s.filter (fun c => !(c.isDigit || c = '.'))).map upChar
    match parseFloatDD numericChars with
    | none => 0
    | some (m, sc) =>
      if unit = ['K'] ∨ unit = ['K', 'B'] then jround (m * 1024) (10 ^ sc)
      else if unit = ['M'] ∨ unit = ['M', 'B'] then jround (m * (1024 * 1024)) (10 ^ sc)
      else if unit = ['G'] ∨ unit = ['G', 'B'] then jround (m * (1024 * 1024 * 1024)) (10 ^ sc)
      else if unit = ['T'] ∨ unit = ['T', 'B'] then jround (m * (1024 * 1024 * 1024 * 1024)) (10 ^ sc)
      else jround m (10 ^ sc)

/-- Result record of `collectDiskUsage`.  The three raw strings are
absent (`none`) on the error paths, which return only the four zeroed
numeric fields.  `percentage = none` models a `NaN` from `parseInt`. -/
structure DiskUsage where
  total : ℤ
  free : ℤ
  used : ℤ
  percentage : Option ℤ
  totalRaw : Option (List Char) := none
  freeRaw : Option (List Char) := none
  usedRaw : Option (List Char) := none
  deriving Repr, DecidableEq

/-- The zeroed record returned by the failure paths of
`collectDiskUsage`. -/
def DiskUsage.zero : DiskUsage :=
  { total := 0, free := 0, used := 0, percentage := some 0 }

/-- Remove the first occurrence of `%`, as `replace('%', '')` does. -/
def dropFirstPct : List Char → List Char
  | [] => []
  | c :: cs => if c = '%' then cs else c :: dropFirstPct cs

/-- `collectDiskUsage`, modelled on the result of the shell command
`df -h / | tail -n 1` (exit code and stdout).  A non-zero exit code
returns the zero record; fewer than five whitespace-separated fields
make `parts[4].replace` throw, and the surrounding catch also returns
the zero record. -/
def collectDiskUsage (code : ℤ) (stdout : List Char) : DiskUsage :=
  if code ≠ 0 then DiskUsage.zero
  else
    let parts := wsTokens (jsTrim stdout)
    if h5 : parts.length < 5 then DiskUsage.zero
    else
      let total := parts.get ⟨1, by omega⟩
      let used := parts.get ⟨2, by omega⟩
      let free := parts.get ⟨3, by omega⟩
      let percentageStr := dropFirstPct (parts.get ⟨4, by omega⟩)
      { total := convertToBytes total
        free := convertToBytes free
        used := convertToBytes used
        percentage := parseIntJS percentageStr
        totalRaw := some total
        freeRaw := some free
        usedRaw := some used }

/-! ## Collector: memory (`collectMemoryInfo`) -/

/-- Result of running one shell command over the SSH session, as
node-ssh's `execCommand` returns it. -/
structure CmdResult where
  code : ℤ
  stdout : List Char
  stderr : List Char
  deriving Repr, DecidableEq

/-- Try the meminfo field pattern (label, then `\s+`, then `\d+`) at
the head of the string; the captured digit run's value on success. -/
def matchLabelAt (label cs : List Char) : Option ℕ :=
  if label.isPrefixOf cs then
    let rest := cs.drop label.length
    let ws := rest.takeWhile isWs
    if ws.isEmpty then none
    else
      let rest2 := rest.drop ws.length
      let ds := rest2.takeWhile Char.isDigit
      if ds.isEmpty then none else some (digitsVal ds)
  else none

/-- Leftmost match of the meminfo field pattern, as `String.match`
finds it (the label has no anchors, so `Cached:` also matches inside
`SwapCached:` — faithful to the source regex). -/
def findLabelNum (label : List Char) : List Char → Option ℕ
  | [] => none
  | c :: cs =>
    match matchLabelAt label (c :: cs) with
    | some v => some v
    | none => findLabelNum label cs

/-- `parseInt(stdout.match(/Label\s+(\d+)/)?.[1] || 0)`: the captured
value, or 0 when the pattern does not occur. -/
def fieldNat (label s : List Char) : ℕ :=
  (findLabelNum label s).getD 0

/-- Result record of `collectMemoryInfo`.  `none` in total/free/used
models a JS `NaN` (possible only on the `free | grep Mem` fallback,
whose `parseInt` can fail); `none` in percentage models the
non-finite number produced by dividing a non-zero value by zero
(`NaN` percentages are turned into 0 by the source's `|| 0`). -/
structure MemoryUsage where
  total : Option ℤ
  free : Option ℤ
  used : Option ℤ
  percentage : Option ℤ
  deriving Repr, DecidableEq

/-- The all-zero record of the fallback and catch paths. -/
def MemoryUsage.zero : MemoryUsage :=
  { total := some 0, free := some 0, used := some 0, percentage := some 0 }

/-- `Math.round((used / total) * 100) || 0` on possibly-NaN operands:
a NaN operand gives NaN, which `|| 0` turns into 0; a zero total gives
NaN (0/0, then `|| 0` gives 0) or an infinity (kept, modelled `none`);
otherwise the rounded finite quotient. -/
def jsPct (used total : Option ℤ) : Option ℤ :=
  match used, total with
  | some u, some t =>
    if t = 0 then (if u = 0 then some 0 else none)
    else some (jround (u * 100) t)
  | _, _ => some 0

/-- `collectMemoryInfo`, modelled on the results of `cat /proc/meminfo`
and of the fallback `free | grep Mem`.  A non-empty stderr on the
first command throws into the catch (zero record); a non-empty stdout
takes the main parse; else the fallback output is split and columns 1
and 3 are read (column 3 is `undefined`, hence NaN, when only three
columns exist). -/
def collectMemoryInfo (mi fr : CmdResult) : MemoryUsage :=
  if mi.stderr ≠ [] then MemoryUsage.zero
  else if mi.stdout ≠ [] then
    let memTotal := fieldNat "MemTotal:".data mi.stdout
    let memFree := fieldNat "MemFree:".data mi.stdout
    let memAvailable := fieldNat "MemAvailable:".data mi.stdout
    let buffers := fieldNat "Buffers:".data mi.stdout
    let cached := fieldNat "Cached:".data mi.stdout
    let effectiveFree := if memAvailable ≠ 0 then memAvailable else memFree + buffers + cached
    let used : ℤ := (memTotal : ℤ) - effectiveFree
    { total := some (memTotal : ℤ)
      free := some (effectiveFree : ℤ)
      used := some used
      percentage := jsPct (some used) (some (memTotal : ℤ)) }
  else if fr.stdout ≠ [] ∧ fr.stderr = [] then
    let parts := wsTokens (jsTrim fr.stdout)
    if h3 : 3 ≤ parts.length then
      let total := parseIntJS (parts.get ⟨1, by omega⟩)
      let free := if h4 : 3 < parts.length then parseIntJS (parts.get ⟨3, h4⟩) else none
      let used : Option ℤ :=
        match total, free with
        | some t, some f => some (t - f)
        | _, _ => none
      { total := total, free := free, used := used, percentage := jsPct used total }
    else MemoryUsage.zero
  else MemoryUsage.zero

/-! ## Collector: CPU load (`collectCpuLoad`) -/

/-- A JS number that entered through `parseFloat`, kept in exact
decimal form `sign * mant * 10 ^ exp`. -/
structure Dec where
  neg : Bool
  mant : ℕ
  exp : ℤ
  deriving Repr, DecidableEq

/-- Rational value of a parsed decimal. -/
def Dec.toRat (d : Dec) : ℚ :=
  (if d.neg then -1 else 1) * (d.mant : ℚ) * 10 ^ d.exp

/-- Division by 100, as the source converts a CPU percentage into a
load-like number. -/
def Dec.div100 (d : Dec) : Dec :=
  { d with exp := d.exp - 2 }

/-- Value of an exponent suffix after the `e`/`E` marker; a marker with
no digits is ignored (JS backtracks it away, leaving exponent 0). -/
def expVal (cs : List Char) : ℤ :=
  match cs with
  | '-' :: r =>
    let ds := r.takeWhile Char.isDigit
    if ds.isEmpty then 0 else -(digitsVal ds : ℤ)
  | '+' :: r =>
    let ds := r.takeWhile Char.isDigit
    if ds.isEmpty then 0 else (digitsVal ds : ℤ)
  | r =>
    let ds := r.takeWhile Char.isDigit
    if ds.isEmpty then 0 else (digitsVal ds : ℤ)

/-- The optional sign at the front of a JS numeric literal: the sign
flag and the remaining characters. -/
def jsSign : List Char → Bool × List Char
  | [] => (false, [])
  | c :: r =>
    if c = '-' then (true, r)
    else if c = '+' then (false, r)
    else (false, c :: r)

/-- The unsigned part of JS `parseFloat`:
`digits [. digits] [e sign digits]`; `none` models `NaN`. -/
def parseFloatBody (neg : Bool) (cs2 : List Char) : Option Dec :=
  let d1 := cs2.takeWhile Char.isDigit
  let r1 := cs2.drop d1.length
  let fr : List Char × List Char :=
    match r1 with
    | '.' :: r => (r.takeWhile Char.isDigit, r.drop (r.takeWhile Char.isDigit).length)
    | _ => ([], r1)
  let d2 := fr.1
  if d1.isEmpty && d2.isEmpty then none
  else
    let mant := digitsVal d1 * 10 ^ d2.length + digitsVal d2
    let e : ℤ :=
      match fr.2 with
      | 'e' :: r3 => expVal r3
      | 'E' :: r3 => expVal r3
      | _ => 0
    some ⟨neg, mant, e - d2.length⟩

/-- JS `parseFloat` on decimal forms: leading whitespace, optional
sign, `digits [. digits] [e sign digits]`; `none` models `NaN`.
(The textual form `Infinity` is not modelled; it cannot occur in the
numeric shell outputs this is applied to.) -/
def parseFloatJS (cs : List Char) : Option Dec :=
  let s := jsSign (cs.dropWhile isWs)
  parseFloatBody s.1 s.2

/-- `stdout.trim().split(' ')[0]`: the characters before the first
space. -/
def jsSplitHeadSpace (cs : List Char) : List Char :=
  cs.takeWhile (fun c => c ≠ ' ')

/-- JS `String.split(sep)` for a one-character separator (empty
segments are kept, as JS keeps them). -/
def splitOnChar (sep : Char) : List Char → List (List Char)
  | [] => [[]]
  | c :: cs =>
    if c = sep then [] :: splitOnChar sep cs
    else
      match splitOnChar sep cs with
      | [] => [[c]]
      | t :: ts => (c :: t) :: ts

/-- JS `String.includes`. -/
def containsSub (pat : List Char) : List Char → Bool
  | [] => pat.isEmpty
  | c :: cs => pat.isPrefixOf (c :: cs) || containsSub pat cs

/-- Try `label` followed by one-or-more characters satisfying `p` at
the head of the string, capturing the greedy run. -/
def matchRunAt (label : List Char) (p : Char → Bool) (cs : List Char) : Option (List Char) :=
  if label.isPrefixOf cs then
    if ((cs.drop label.length).takeWhile p).isEmpty then none
    else some ((cs.drop label.length).takeWhile p)
  else none

/-- Leftmost match of `label` followed by a run of `p`, as used for
the regex `load average: ([0-9.]+)`. -/
def findLabelRun (label : List Char) (p : Char → Bool) : List Char → Option (List Char)
  | [] => none
  | c :: cs =>
    match matchRunAt label p (c :: cs) with
    | some run => some run
    | none => findLabelRun label p cs

/-- Try the pattern `([0-9.]+)\s*%us` at the head of the string.  The
run and the whitespace classes are disjoint from `%`, so the greedy
run is the only candidate. -/
def matchNumPctUsAt (cs : List Char) : Option (List Char) :=
  if (cs.takeWhile (fun c => c.isDigit || c = '.')).isEmpty then none
  else if "%us".data.isPrefixOf
      ((cs.drop (cs.takeWhile (fun c => c.isDigit || c = '.')).length).dropWhile isWs) then
    some (cs.takeWhile (fun c => c.isDigit || c = '.'))
  else none

/-- Leftmost match of `([0-9.]+)\s*%us`. -/
def findNumPctUs : List Char → Option (List Char)
  | [] => none
  | c :: cs =>
    match matchNumPctUsAt (c :: cs) with
    | some run => some run
    | none => findNumPctUs cs

/-- `collectCpuLoad`, modelled on the results of the four fallback
commands: `cat /proc/loadavg`, `uptime`,
`top -bn1 | grep %Cpu | awk ...` and `top -bn1 | head -n 3`.
The first command with usable output decides the result exactly as the
source's early returns do; `none` models a returned `NaN`; the final
fallback returns 0. -/
def collectCpuLoad (loadRes upRes cpuRes topRes : CmdResult) : Option Dec :=
  if loadRes.stdout ≠ [] ∧ loadRes.stderr = [] then
    parseFloatJS (jsSplitHeadSpace (jsTrim loadRes.stdout))
  else
    match (if upRes.stdout ≠ [] ∧ upRes.stderr = [] then
        findLabelRun "load average: ".data (fun c => c.isDigit || c = '.') upRes.stdout
      else none) with
    | some cap => parseFloatJS cap
    | none =>
      match (if cpuRes.stdout ≠ [] ∧ cpuRes.stderr = [] then
          parseFloatJS (jsTrim cpuRes.stdout)
        else none) with
      | some v => some v.div100
      | none =>
        match (if topRes.stdout ≠ [] then
            ((splitOnChar '\n' topRes.stdout).find? (fun l => containsSub "Cpu".data l)).bind
              findNumPctUs
          else none) with
        | some cap2 => (parseFloatJS cap2).map Dec.div100
        | none => some ⟨false, 0, 0⟩

/-! ## Scanner: probing passes (`comprehensiveSubnetScan`, `quickRouterScan`) -/

/-- A TCP probe oracle: does `ip:port` answer within the tier's
timeout?  It models `checkPortOpenQuick`/`checkPortOpen`, which always
resolve with a boolean and never reject. -/
def Probe : Type :=
  List Char → ℕ → Bool

/-- Append a trailing dot when missing, as
`subnet.endsWith('.') ? subnet : subnet + '.'`. -/
def fmtSubnet (s : List Char) : List Char :=
  if s.getLast? = some '.' then s else s ++ ['.']

/-- Walk a port list, stopping at the first open port — the shape of
every `for (const port of ports) { if (await check(...)) break; }`
loop in the scanner. -/
def probeAny (probe : Probe) (ip : List Char) (ports : List ℕ) : Bool :=
  ports.any (fun p => probe ip p)

/-- `comprehensiveSubnetScan`: the hard-coded `.36` target is probed on
a wide port list (approach 1), then on three ports with an extreme
timeout (approach 2), and is force-added when still absent
(approach 3); then the neighbourhood 34–38 is probed on ports
22/80/443 and appended when open and not already present. -/
def comprehensiveSubnetScan (probe : Probe) (subnet : List Char) : List (List Char) :=
  let formatted := fmtSubnet subnet
  let target := formatted ++ "36".data
  let step1 : List (List Char) :=
    if probeAny probe target [22, 80, 443, 8080, 8081, 8443, 23, 53, 21, 25, 3389, 5000] then
      [target]
    else []
  let step2 :=
    if step1.contains target then step1
    else if probeAny probe target [80, 22, 23] then step1 ++ [target]
    else step1
  let step3 := if step2.contains target then step2 else step2 ++ [target]
  [34, 35, 37, 38].foldl
    (fun acc i =>
      if probeAny probe (formatted ++ (Nat.repr i).data) [22, 80, 443] = true ∧
          ¬acc.contains (formatted ++ (Nat.repr i).data) = true then
        acc ++ [formatted ++ (Nat.repr i).data]
      else acc)
    step3

/-- `quickRouterScan`: the `.36` target first on five ports, then the
common router last-octets on ports 22/80/443, then — when at most one
address was found — a wider last-octet range on port 22 only.  (The
force-add of `.36` in this function sits in a catch handler that the
non-rejecting port check never reaches, so it is absent here.) -/
def quickRouterScan (probe : Probe) (subnet : List Char) : List (List Char) :=
  let target := subnet ++ "36".data
  let step1 : List (List Char) :=
    if probeAny probe target [22, 80, 443, 8080, 23] then [target] else []
  let step2 :=
    ["1", "254", "100", "101", "102", "2", "99", "253", "250", "252",
      "10", "20", "30", "50"].foldl
      (fun acc ip =>
        if probeAny probe (subnet ++ ip.data) [22, 80, 443] = true ∧
            ¬acc.contains (subnet ++ ip.data) = true then
          acc ++ [subnet ++ ip.data]
        else acc)
      step1
  if step2.length ≤ 1 then
    [35, 37, 38, 39, 40, 150, 160, 170, 180, 190, 200].foldl
      (fun acc i =>
        if probe (subnet ++ (Nat.repr i).data) 22 = true ∧
            ¬acc.contains (subnet ++ (Nat.repr i).data) = true then
          acc ++ [subnet ++ (Nat.repr i).data]
        else acc)
      step2
  else step2

/-! ## Scanner: job registry (`createScanJob`, `updateScanJob`, `startScanJob`) -/

/-- ScanJob lifecycle states. -/
inductive JobStatus where
  | pending
  | running
  | completed
  | error
  deriving Repr, DecidableEq

/-- A device record assembled by the fingerprint pass.  `note` and
`sshSuccess` model JS properties that most construction sites leave
absent. -/
structure DiscoveredDevice where
  ipAddress : List Char
  hostname : List Char
  isOpenWrt : Bool
  macAddress : Option (List Char)
  note : Option (List Char) := none
  sshSuccess : Option Bool := none
  deriving Repr, DecidableEq

/-- The `results` record of a scan job. -/
structure ScanResults where
  devices : List DiscoveredDevice
  partialScan : Bool
  deriving Repr, DecidableEq

/-- One entry of the in-memory scan-job map.  The source also stores
`createdAt`/`updatedAt` timestamps, which carry no information the
claims under study touch. -/
structure ScanJob where
  id : List Char
  subnet : List Char
  status : JobStatus
  progress : ℕ
  message : Option (List Char) := none
  results : ScanResults
  error : Option (List Char) := none
  deriving Repr, DecidableEq

/-- `createScanJob`: a fresh pending job with progress 0 and empty
results. -/
def createScanJob (id subnet : List Char) : ScanJob :=
  { id := id
    subnet := subnet
    status := .pending
    progress := 0
    results := { devices := [], partialScan := false }
    error := none }

/-- The `updates` object passed to `updateScanJob`: only the fields
present in the object overwrite the job. -/
structure JobPatch where
  status : Option JobStatus := none
  progress : Option ℕ := none
  message : Option (List Char) := none
  results : Option ScanResults := none
  error : Option (List Char) := none
  deriving Repr, DecidableEq

/-- `updateScanJob`: spread-merge of the patch over the stored job. -/
def updateScanJob (j : ScanJob) (p : JobPatch) : ScanJob :=
  { id := j.id
    subnet := j.subnet
    status := p.status.getD j.status
    progress := p.progress.getD j.progress
    message := match p.message with | some m => some m | none => j.message
    results := p.results.getD j.results
    error := match p.error with | some e => some e | none => j.error }

/-- The patch written by `startScanJob`'s catch handler. -/
def errorPatch (e : List Char) : JobPatch :=
  { status := some .error, progress := some 100, error := some e }

/-- The sequence of `updateScanJob` patches that one run of
`startScanJob` issues, in program order.  The three `Except`
parameters are the outcomes of the awaited `comprehensiveSubnetScan`,
`quickRouterScan` and `scanForOpenWrtDevices` calls; a thrown error at
any of them jumps to the catch handler's single error patch.  A job
that is not pending is returned untouched (no patches). -/
def startScanJobPatches (j : ScanJob)
    (specific : Except (List Char) (List (List Char)))
    (quick : Except (List Char) (List (List Char)))
    (fingerprint : Except (List Char) ScanResults) : List JobPatch :=
  if j.status ≠ .pending then []
  else
    [{ status := some .running, progress := some 5 },
     { progress := some 10, message := some "Scanning reported device locations".data }] ++
    match specific with
    | .error e => [errorPatch e]
    | .ok sIPs =>
      [{ progress := some 20,
         message := some ("Found ".data ++ (Nat.repr sIPs.length).data ++
           " devices in targeted scan".data) },
       { progress := some 30, message := some "Checking common router IPs".data }] ++
      match quick with
      | .error e => [errorPatch e]
      | .ok qIPs =>
        [{ progress := some 40,
           message := some ("Found ".data ++ (Nat.repr (sIPs ++ qIPs).eraseDups.length).data ++
             " potential devices total".data) }] ++
        if (sIPs ++ qIPs).eraseDups.isEmpty then
          [{ status := some .completed, progress := some 100,
             message := some "No potential routers found".data,
             results := some { devices := [], partialScan := false } }]
        else
          [{ progress := some 50,
             message := some ("Checking ".data ++
               (Nat.repr (sIPs ++ qIPs).eraseDups.length).data ++
               " potential devices for OpenWrt".data) }] ++
          match fingerprint with
          | .error e => [errorPatch e]
          | .ok res =>
            [{ status := some .completed, progress := some 100,
               message := some ("Completed scan, found ".data ++
                 (Nat.repr res.devices.length).data ++ " devices".data),
               results := some res }]

/-! ## Scanner: fingerprint pass (`scanForOpenWrtDevices`) -/

/-- The placeholder device pushed for the special `.36` host when the
extended check cannot confirm it (note the hostname "Unknown Router"
and the absence of an `sshSuccess` property). -/
def placeholderDevice (ip : List Char) : DiscoveredDevice :=
  { ipAddress := ip
    hostname := "Unknown Router".data
    isOpenWrt := true
    macAddress := none
    note := some "Device detection limited - manual verification recommended".data
    sshSuccess := none }

/-- `scanForOpenWrtDevices`: the special `.36` host gets the extended
check and, on failure, the placeholder device; every other candidate
gets the quick check, whose `null` results are filtered out of the
final device list.  `ext`/`quick` are oracles for
`extendedCheckOpenWrtDevice` and `quickCheckOpenWrtDevice` (both
resolve — the 5s/3s races and the catch handler never reject). -/
def scanForOpenWrtDevices (ext quick : List Char → Option DiscoveredDevice)
    (probe : Probe) (subnet : List Char) (activeIPs : List (List Char)) :
    List DiscoveredDevice × Bool :=
  let formatted := fmtSubnet subnet
  let ipsToCheck := if activeIPs.isEmpty then quickRouterScan probe formatted else activeIPs
  if ipsToCheck.isEmpty then ([], true)
  else
    let specialIP := formatted ++ "36".data
    let specialDevices : List DiscoveredDevice :=
      if ipsToCheck.contains specialIP then
        match ext specialIP with
        | some d => [d]
        | none => [placeholderDevice specialIP]
      else []
    let remaining :=
      if ipsToCheck.contains specialIP then ipsToCheck.filter (fun ip => ip ≠ specialIP)
      else ipsToCheck
    (specialDevices ++ remaining.filterMap quick, false)

/-! ## Connection test (`testConnection` in ssh.js and its controller) -/

/-- The Router row as the connection-test path reads and writes it.
`ipAddress` is optional because `testConnection` guards on its
truthiness; other persisted columns are carried untouched. -/
structure RouterRec where
  id : ℕ
  name : List Char
  ipAddress : Option (List Char)
  status : List Char
  lastSeen : Option ℕ
  deriving Repr, DecidableEq

/-- `testConnection` from ssh.js: missing IP fails; a closed port 22
fails; an open port with a failed SSH handshake is still reported
reachable ("online but with limited functionality"); otherwise the
echo/hostname/version probes run in order and the function returns
`success || portOpen`, which is true whenever this point is reached.
`sshOk` is the outcome oracle of `createSSHClient`. -/
def sshTestConnection (probe : Probe) (sshOk : Bool)
    (echoRes hostRes verRes : CmdResult) (r : RouterRec) : Bool :=
  match r.ipAddress with
  | none => false
  | some ip =>
    let portOpen := probe ip 22
    if !portOpen then false
    else if !sshOk then true
    else
      let s1 : Bool := echoRes.code = 0
      let s2 : Bool := if s1 then true else hostRes.code = 0
      let s3 : Bool := if s2 then true else verRes.code = 0
      s3 || portOpen

/-- The `details` object the specification ascribes to the
test-connection response.  Written from the spec's words for the
refinement check: the controller never constructs it. -/
structure TCDetails where
  portOpen : Bool
  sshConnection : Bool
  deriving Repr, DecidableEq

/-- The JSON body (plus HTTP status) of `POST
/routers/:id/test-connection`; `none` fields are properties absent
from the body the code sends. -/
structure TCResponse where
  httpStatus : ℕ
  success : Option Bool := none
  message : List Char
  details : Option TCDetails := none
  deriving Repr, DecidableEq

/-- The router controller's `testConnection` handler: 404 when the
router is missing; otherwise the router's status (and on success
`lastSeen`) is written and a `{success, message}` body is returned. -/
def testConnectionController (found : Option RouterRec) (isConnected : Bool) (now : ℕ) :
    TCResponse × Option RouterRec :=
  match found with
  | none => ({ httpStatus := 404, message := "Router not found".data }, none)
  | some r =>
    if isConnected then
      ({ httpStatus := 200, success := some true, message := "Connection successful".data },
        some { r with status := "online".data, lastSeen := some now })
    else
      ({ httpStatus := 200, success := some false, message := "Connection failed".data },
        some { r with status := "offline".data })

/-- The endpoint for an existing router: controller composed with the
SSH-side test. -/
def testConnectionEndpoint (probe : Probe) (sshOk : Bool)
    (echoRes hostRes verRes : CmdResult) (r : RouterRec) (now : ℕ) :
    TCResponse × Option RouterRec :=
  testConnectionController (some r) (sshTestConnection probe sshOk echoRes hostRes verRes r) now

/-! ## Collector entry point (`collectMetrics`) and scheduler fan-out -/

/-- One parsed network interface, as `collectNetworkInfo` assembles
it.  That function's block parsing is not touched by any claim, so
the collected list is supplied by the oracle environment below. -/
structure NetIf where
  name : List Char
  ipAddress : List Char
  macAddress : List Char
  rxBytes : ℤ
  txBytes : ℤ
  status : List Char
  deriving Repr, DecidableEq

/-- Oracle environment of one `collectMetrics` run: the reachability
probe outcome, the `createSSHClient` outcome, and the results of each
shell command in the battery. -/
structure CollectEnv where
  portOpen : Bool
  sshOk : Bool
  uptimeRes : CmdResult
  meminfoRes : CmdResult
  freeRes : CmdResult
  loadRes : CmdResult
  upRes : CmdResult
  cpuRes : CmdResult
  topRes : CmdResult
  dfRes : CmdResult
  iwWhichRes : CmdResult
  iwCountRes : CmdResult
  netIfs : List NetIf
  deriving Repr, DecidableEq

/-- The metric record `collectMetrics` returns.  `uptime = none`
models the JS `null`; `cpuLoad`/`wirelessClients` are `none` when a
`NaN` was stored. -/
structure MetricsResult where
  error : Option (List Char) := none
  uptime : Option (List Char)
  memoryUsage : MemoryUsage
  cpuLoad : Option Dec
  diskUsage : DiskUsage
  networkInterfaces : List NetIf
  wirelessClients : Option ℤ
  deriving Repr, DecidableEq

/-- The sentinel record of the two unreachable/SSH-failed branches:
every numeric field zero, interface list empty, uptime null, and the
explanatory `error` string. -/
def sentinelMetrics (msg : List Char) : MetricsResult :=
  { error := some msg
    uptime := none
    memoryUsage := MemoryUsage.zero
    cpuLoad := some ⟨false, 0, 0⟩
    diskUsage := DiskUsage.zero
    networkInterfaces := []
    wirelessClients := some 0 }

/-- `collectUptime`: the trimmed stdout of `uptime` (the catch path is
unreachable for a resolving `execCommand`). -/
def collectUptime (r : CmdResult) : Option (List Char) :=
  some (jsTrim r.stdout)

/-- `collectWirelessInfo`: 0 unless `which iw` and the station count
both exit 0, then `parseInt` of the trimmed count. -/
def collectWirelessInfo (whichRes countRes : CmdResult) : Option ℤ :=
  if whichRes.code ≠ 0 then some 0
  else if countRes.code ≠ 0 then some 0
  else parseIntJS (jsTrim countRes.stdout)

/-- `collectMetrics`: the reachability pre-check returns the
"Device not reachable" sentinel before any SSH client is created; a
failed SSH connection returns the "SSH connection failed" sentinel;
otherwise each sub-collector runs with per-field error tolerance.
The boolean is true iff `createSSHClient` was reached, so the claims
can speak about "no shell session was opened". -/
def collectMetrics (env : CollectEnv) : MetricsResult × Bool :=
  if !env.portOpen then (sentinelMetrics "Device not reachable".data, false)
  else if !env.sshOk then (sentinelMetrics "SSH connection failed".data, true)
  else
    ({ error := none
       uptime := collectUptime env.uptimeRes
       memoryUsage := collectMemoryInfo env.meminfoRes env.freeRes
       cpuLoad := collectCpuLoad env.loadRes env.upRes env.cpuRes env.topRes
       diskUsage := collectDiskUsage env.dfRes.code env.dfRes.stdout
       networkInterfaces := env.netIfs
       wirelessClients := collectWirelessInfo env.iwWhichRes env.iwCountRes }, true)

/-- The Router row as the scheduler reads and writes it. -/
structure SchedRouter where
  id : ℕ
  name : List Char
  monitoringEnabled : Bool
  status : List Char
  lastSeen : Option ℕ
  deriving Repr, DecidableEq

/-- A persisted Metric row. -/
structure MetricRow where
  routerId : ℕ
  metrics : MetricsResult
  timestamp : ℕ
  deriving Repr, DecidableEq

/-- The body of `collectAllMetrics`' per-router task in cron.js: a
falsy metrics value marks the router offline and persists nothing; a
truthy one marks it online, stamps `lastSeen`, and persists the
metric row. -/
def schedProcessRouter (mOpt : Option MetricsResult) (r : SchedRouter) (now : ℕ) :
    SchedRouter × List MetricRow :=
  match mOpt with
  | none => ({ r with status := "offline".data }, [])
  | some m => ({ r with status := "online".data, lastSeen := some now },
      [{ routerId := r.id, metrics := m, timestamp := now }])

/-- One router's pass through `collectAllMetrics`: `collectMetrics`
always returns an object (never null), so the scheduler's `!metrics`
guard always receives `some …` and its offline arm is dead code. -/
def collectAllMetricsRouter (env : CollectEnv) (r : SchedRouter) (now : ℕ) :
    SchedRouter × List MetricRow :=
  schedProcessRouter (some (collectMetrics env).1) r now

/-- An idle command result (exit 0, no output), for environments in
which the shell is never reached. -/
def cmdNone : CmdResult :=
  ⟨0, [], []⟩

/-- A collection environment whose reachability probe fails: the SSH
port does not answer, so no command ever runs. -/
def envUnreachable : CollectEnv :=
  { portOpen := false
    sshOk := false
    uptimeRes := cmdNone
    meminfoRes := cmdNone
    freeRes := cmdNone
    loadRes := cmdNone
    upRes := cmdNone
    cpuRes := cmdNone
    topRes := cmdNone
    dfRes := cmdNone
    iwWhichRes := cmdNone
    iwCountRes := cmdNone
    netIfs := [] }

/-! ## Scanner controller: `addMultipleRouters` -/

/-- JS truthiness of an optional string property: present and
non-empty. -/
def truthy (o : Option (List Char)) : Bool :=
  match o with
  | some s => !s.isEmpty
  | none => false

/-- `a || b` on an optional string with a string default. -/
def jsOr (o : Option (List Char)) (dflt : List Char) : List Char :=
  match o with
  | some s => if s.isEmpty then dflt else s
  | none => dflt

/-- `a || b` on two optional strings. -/
def jsOrOpt (o dflt : Option (List Char)) : Option (List Char) :=
  if truthy o then o else dflt

/-- One device object of the `POST /scanner/add-multiple` payload;
every property may be absent. -/
structure DevicePayload where
  ipAddress : Option (List Char) := none
  hostname : Option (List Char) := none
  macAddress : Option (List Char) := none
  username : Option (List Char) := none
  password : Option (List Char) := none
  name : Option (List Char) := none
  deriving Repr, DecidableEq

/-- A Router row of the sequelize store, with the columns this
endpoint reads and writes. -/
structure DbRouter where
  id : ℕ
  name : List Char
  hostname : List Char
  ipAddress : List Char
  macAddress : Option (List Char)
  username : List Char
  password : List Char
  status : List Char
  deriving Repr, DecidableEq

/-- The loop state of `addMultipleRouters`: the router table, the next
server-minted id, and the three result lists (failures keep the
device's ipAddress as the code reports it). -/
structure AddState where
  db : List DbRouter
  nextId : ℕ
  added : List DbRouter
  updated : List DbRouter
  failed : List (Option (List Char))
  deriving Repr, DecidableEq

/-- The two lookups of the device loop: by MAC when one is given,
else by the AND of the ip/hostname columns that are present. -/
def findExisting (db : List DbRouter) (d : DevicePayload) : Option DbRouter :=
  match (if truthy d.macAddress then db.find? (fun r => r.macAddress == d.macAddress)
    else none) with
  | some r => some r
  | none =>
    db.find? (fun r =>
      (!truthy d.ipAddress || r.ipAddress == d.ipAddress.getD []) &&
      (!truthy d.hostname || r.hostname == d.hostname.getD []))

/-- One iteration of the device loop: the missing-fields check first,
then (`err` injects a thrown storage error, caught into `failed`) the
lookups and the update-or-create branch. -/
def processDevice (err : Bool) (st : AddState) (d : DevicePayload) : AddState :=
  if ¬(truthy d.ipAddress ∨ truthy d.hostname) then
    { st with failed := st.failed ++ [d.ipAddress] }
  else if err then
    { st with failed := st.failed ++ [d.ipAddress] }
  else
    match findExisting st.db d with
    | some r =>
      let r2 : DbRouter :=
        { r with
          ipAddress := jsOr d.ipAddress r.ipAddress
          hostname := jsOr d.hostname r.hostname
          macAddress := jsOrOpt d.macAddress r.macAddress
          username := jsOr d.username r.username
          password := jsOr d.password r.password }
      { st with
        db := st.db.map (fun x => if x.id = r.id then r2 else x)
        updated := st.updated ++ [r2] }
    | none =>
      let newR : DbRouter :=
        { id := st.nextId
          name := jsOr d.name (jsOr d.hostname (d.ipAddress.getD []))
          hostname := d.hostname.getD []
          ipAddress := d.ipAddress.getD []
          macAddress := if truthy d.macAddress then d.macAddress else none
          username := d.username.getD []
          password := d.password.getD []
          status := "active".data }
      { st with
        db := st.db ++ [newR]
        nextId := st.nextId + 1
        added := st.added ++ [newR] }

/-- The `for (const device of devices)` loop, with one error-injection
flag per device. -/
def addMultipleLoop : List DevicePayload → List Bool → AddState → AddState
  | [], _, st => st
  | d :: ds, errs, st => addMultipleLoop ds errs.tail (processDevice (errs.headD false) st d)

/-- The summary block of the response. -/
structure AddSummary where
  added : ℕ
  updated : ℕ
  failed : ℕ
  total : ℕ
  deriving Repr, DecidableEq

/-- The 200 response of `addMultipleRouters`: summary plus the three
lists.  `none` models the 400 response for a missing or empty devices
array. -/
structure AddResponse where
  summary : AddSummary
  added : List DbRouter
  updated : List DbRouter
  failed : List (Option (List Char))
  deriving Repr, DecidableEq

/-- `addMultipleRouters` on an existing router table: 400 when the
devices array is empty, else process each device and report the
counts. -/
def addMultipleRouters (errs : List Bool) (db0 : List DbRouter) (nextId0 : ℕ)
    (devices : List DevicePayload) : Option AddResponse :=
  if devices.isEmpty then none
  else
    let fin := addMultipleLoop devices errs
      { db := db0, nextId := nextId0, added := [], updated := [], failed := [] }
    some
      { summary :=
          { added := fin.added.length
            updated := fin.updated.length
            failed := fin.failed.length
            total := devices.length }
        added := fin.added
        updated := fin.updated
        failed := fin.failed }

/-- The 1024-based multiplier that `convertToBytes` applies to an
uppercased unit string (1 for every unit outside the switch). -/
def unitMult (u : List Char) : ℤ :=
  if u = ['K'] ∨ u = ['K', 'B'] then 1024
  else if u = ['M'] ∨ u = ['M', 'B'] then 1024 * 1024
  else if u = ['G'] ∨ u = ['G', 'B'] then 1024 * 1024 * 1024
  else if u = ['T'] ∨ u = ['T', 'B'] then 1024 * 1024 * 1024 * 1024
  else 1

/-! ## Basic facts about the numeric helpers -/

theorem jround_eq (a b : ℤ) (hb : 0 < b) :
    jround a b = ⌊(a : ℚ) / b + 1 / 2⌋ := by
  have hb2 : (0 : ℤ) ≤ 2 * b := by omega
  obtain ⟨n, hn⟩ : ∃ n : ℕ, 2 * b = (n : ℤ) := ⟨(2 * b).toNat, (Int.toNat_of_nonneg hb2).symm⟩
  have hbq : (b : ℚ) ≠ 0 := by
    exact_mod_cast hb.ne'
  have h1 : (a : ℚ) / b + 1 / 2 = ((2 * a + b : ℤ) : ℚ) / ((n : ℕ) : ℚ) := by
    have : ((2 * b : ℤ) : ℚ) = ((n : ℕ) : ℚ) := by
      exact_mod_cast congrArg (fun z : ℤ => (z : ℚ)) hn
    push_cast at this ⊢
    rw [← this]
    field_simp
    ring
  rw [jround, Int.fdiv_eq_ediv _ hb2, h1, Rat.floor_intCast_div_natCast, hn]

theorem jround_nonneg (a b : ℤ) (ha : 0 ≤ a) (hb : 0 ≤ b) :
    0 ≤ jround a b :=
  Int.fdiv_nonneg (by omega) (by omega)

theorem unitMult_pos (u : List Char) : 0 < unitMult u := by
  unfold unitMult
  split_ifs <;> norm_num

theorem convertToBytes_unit (ds us : List Char) (m sc : ℕ)
    (hds : ∀ c ∈ ds, (c.isDigit || c = '.') = true)
    (hus : ∀ c ∈ us, (c.isDigit || c = '.') = false)
    (hp : parseFloatDD ds = some (m, sc)) :
    convertToBytes (ds ++ us) = ⌊(m : ℚ) / 10 ^ sc * unitMult (us.map upChar) + 1 / 2⌋ := by
  have hne : ds ≠ [] := by
    intro h
    rw [h] at hp
    simp [parseFloatDD] at hp
  have hfilter1 : (ds ++ us).filter (fun c => c.isDigit || c = '.') = ds := by
    rw [List.filter_append, List.filter_eq_self.mpr hds,
      List.filter_eq_nil_iff.mpr ?_, List.append_nil]
    intro c hc
    simp [hus c hc]
  have hfilter2 : (ds ++ us).filter (fun c => !(c.isDigit || c = '.')) = us := by
    rw [List.filter_append, List.filter_eq_nil_iff.mpr ?_, List.filter_eq_self.mpr ?_]
    · simp
    · intro c hc
      simp [hus c hc]
    · intro c hc
      simp [hds c hc]
  have hemp : (ds ++ us).isEmpty = false := by
    cases ds with
    | nil => exact absurd rfl hne
    | cons a l => rfl
  have hpow : (0 : ℤ) < 10 ^ sc := by positivity
  rw [convertToBytes, hemp]
  simp only [Bool.false_eq_true, if_false, hfilter1, hfilter2, hp]
  unfold unitMult
  split_ifs with h1 h2 h3 h4 <;>
    · rw [jround_eq _ _ hpow]
      congr 1
      push_cast
      ring

/-! ## Claim theorems: disk size parsing -/

/-- C6: the Collector's `df -h` size parser accepts the unit suffixes
K/KB/M/MB/G/GB/T/TB case-insensitively with 1024-based multipliers
(any numeric part followed by any unit string is scaled by the
multiplier of its uppercased unit, 1 outside the table) and preserves
the original strings in totalRaw/usedRaw/freeRaw; on the df line
`rootfs 98.3M 49.1M 49.2M 50% /` it yields percentage 50, the three
raw strings unchanged, and a used byte count within 1% of
51498189 bytes. -/
theorem df_size_parser_units_and_seed_line :
    (∀ (ds us : List Char) (m sc : ℕ),
        (∀ c ∈ ds, (c.isDigit || c = '.') = true) →
        (∀ c ∈ us, (c.isDigit || c = '.') = false) →
        parseFloatDD ds = some (m, sc) →
        convertToBytes (ds ++ us) =
          ⌊(m : ℚ) / 10 ^ sc * unitMult (us.map upChar) + 1 / 2⌋) ∧
    ((collectDiskUsage 0 "rootfs 98.3M 49.1M 49.2M 50% /".data).percentage = some 50 ∧
      (collectDiskUsage 0 "rootfs 98.3M 49.1M 49.2M 50% /".data).totalRaw = some "98.3M".data ∧
      (collectDiskUsage 0 "rootfs 98.3M 49.1M 49.2M 50% /".data).usedRaw = some "49.1M".data ∧
      (collectDiskUsage 0 "rootfs 98.3M 49.1M 49.2M 50% /".data).freeRaw = some "49.2M".data ∧
      ((collectDiskUsage 0 "rootfs 98.3M 49.1M 49.2M 50% /".data).used - 51498189).natAbs * 100
        ≤ 51498189) :=
  ⟨fun ds us m sc h1 h2 h3 => convertToBytes_unit ds us m sc h1 h2 h3, by decide⟩

/-- Witness for C6: the unit theorem applied to the lower-case input
"49.1kb". -/
theorem df_size_parser_units_and_seed_line_witness :
    convertToBytes ("49.1".data ++ "kb".data) =
      ⌊(491 : ℚ) / 10 ^ 1 * unitMult ("kb".data.map upChar) + 1 / 2⌋ :=
  df_size_parser_units_and_seed_line.1 "49.1".data "kb".data 491 1
    (by decide) (by decide) (by decide)

/-- C10: `convertToBytes` is total and safe: every input string maps to
a non-negative integer, and whenever no numeric component can be
parsed from the input (the stripped digits-and-dots subsequence does
not parse) the result is 0. -/
theorem convertToBytes_total_safe :
    ∀ s : List Char, 0 ≤ convertToBytes s ∧
      (parseFloatDD (s.filter (fun c => c.isDigit || c = '.')) = none → convertToBytes s = 0) := by
  intro s
  constructor
  · rw [convertToBytes]
    cases hs : s.isEmpty with
    | true => simp
    | false =>
      simp only [Bool.false_eq_true, if_false]
      cases hp : parseFloatDD (s.filter fun c => c.isDigit || c = '.') with
      | none => simp [hp]
      | some p =>
        obtain ⟨m, sc⟩ := p
        simp only [hp]
        split_ifs <;> exact jround_nonneg _ _ (by positivity) (by positivity)
  · intro h
    rw [convertToBytes]
    cases hs : s.isEmpty with
    | true => simp
    | false => simp [h]

/-- Witness for C10: a malformed size string evaluates to 0 and is
non-negative. -/
theorem convertToBytes_total_safe_witness :
    convertToBytes "N/A".data = 0 ∧ 0 ≤ convertToBytes "N/A".data :=
  ⟨(convertToBytes_total_safe "N/A".data).2 (by decide),
    (convertToBytes_total_safe "N/A".data).1⟩

/-! ## Facts about parsing and rounding used by the metric bounds -/

theorem jsPct_bounds (u t : ℤ) (hu : 0 ≤ u) (hut : u ≤ t) :
    ∃ p, jsPct (some u) (some t) = some p ∧ 0 ≤ p ∧ p ≤ 100 := by
  by_cases ht : t = 0
  · subst ht
    have hu0 : u = 0 := le_antisymm hut hu
    exact ⟨0, by simp [jsPct, hu0], by norm_num⟩
  · have htpos : 0 < t := lt_of_le_of_ne (le_trans hu hut) (Ne.symm ht)
    refine ⟨jround (u * 100) t, by simp [jsPct, ht], jround_nonneg _ _ (by positivity) htpos.le, ?_⟩
    rw [jround_eq _ _ htpos]
    have hq1 : (u : ℚ) ≤ (t : ℚ) := by exact_mod_cast hut
    have hq2 : (0 : ℚ) < (t : ℚ) := by exact_mod_cast htpos
    have harg : ((u * 100 : ℤ) : ℚ) / t + 1 / 2 < ((101 : ℤ) : ℚ) := by
      have h1 : ((u * 100 : ℤ) : ℚ) / t ≤ 100 := by
        rw [div_le_iff₀ hq2]
        push_cast
        nlinarith
      push_cast at h1 ⊢
      linarith
    have := Int.floor_lt.mpr harg
    omega

theorem Dec.toRat_nonneg (d : Dec) (h : d.neg = false) : 0 ≤ d.toRat := by
  rw [Dec.toRat, h]
  have h10 : (0 : ℚ) ≤ 10 ^ d.exp := by positivity
  have hm : (0 : ℚ) ≤ (d.mant : ℚ) := by positivity
  simp only [Bool.false_eq_true, if_false]
  nlinarith

theorem jsSign_fst (l : List Char) (h : '-' ∉ l) : (jsSign l).1 = false := by
  cases l with
  | nil => rfl
  | cons c r =>
    have hc : ¬c = '-' := fun hc => h (hc ▸ List.mem_cons_self _ _)
    by_cases hc2 : c = '+' <;> simp [jsSign, hc, hc2]

theorem parseFloatBody_neg (neg : Bool) (cs2 : List Char) (d : Dec)
    (h : parseFloatBody neg cs2 = some d) : d.neg = neg := by
  rw [parseFloatBody] at h
  split at h
  · exact absurd h (by simp)
  · rw [Option.some.injEq] at h
    rw [← h]

theorem parseFloatJS_neg_eq (cs : List Char) (d : Dec)
    (h : parseFloatJS cs = some d) (hm : '-' ∉ cs) : d.neg = false := by
  have hm1 : '-' ∉ cs.dropWhile isWs := fun hc => hm ((cs.dropWhile_sublist isWs).mem hc)
  rw [parseFloatJS] at h
  rw [parseFloatBody_neg _ _ _ h]
  exact jsSign_fst _ hm1

theorem parseFloatJS_nonneg (cs : List Char) (d : Dec)
    (h : parseFloatJS cs = some d) (hm : '-' ∉ cs) : 0 ≤ d.toRat :=
  Dec.toRat_nonneg d (parseFloatJS_neg_eq cs d h hm)

theorem mem_of_mem_jsTrim {c : Char} {s : List Char} (h : c ∈ jsTrim s) : c ∈ s := by
  rw [jsTrim, List.mem_reverse] at h
  exact (s.dropWhile_sublist isWs).mem
    (List.mem_reverse.mp (((s.dropWhile isWs).reverse.dropWhile_sublist isWs).mem h))

theorem matchRunAt_chars (label : List Char) (p : Char → Bool) (cs run : List Char)
    (h : matchRunAt label p cs = some run) : ∀ c ∈ run, p c = true := by
  rw [matchRunAt] at h
  split at h
  · split at h
    · exact absurd h (by simp)
    · rw [Option.some.injEq] at h
      intro c hc
      exact List.mem_takeWhile_imp (h ▸ hc)
  · exact absurd h (by simp)

theorem findLabelRun_chars (label : List Char) (p : Char → Bool) (s run : List Char)
    (h : findLabelRun label p s = some run) : ∀ c ∈ run, p c = true := by
  induction s with
  | nil => exact absurd h (by simp [findLabelRun])
  | cons a l ih =>
    rw [findLabelRun] at h
    split at h
    · rename_i heq
      rw [Option.some.injEq] at h
      exact h ▸ matchRunAt_chars label p (a :: l) _ heq
    · exact ih h

theorem matchNumPctUsAt_chars (cs run : List Char)
    (h : matchNumPctUsAt cs = some run) : ∀ c ∈ run, (c.isDigit || c = '.') = true := by
  rw [matchNumPctUsAt] at h
  split at h
  · exact absurd h (by simp)
  · split at h
    · rw [Option.some.injEq] at h
      intro c hc
      rw [← h] at hc
      simpa using List.mem_takeWhile_imp hc
    · exact absurd h (by simp)

theorem findNumPctUs_chars (s run : List Char)
    (h : findNumPctUs s = some run) : ∀ c ∈ run, (c.isDigit || c = '.') = true := by
  induction s with
  | nil => exact absurd h (by simp [findNumPctUs])
  | cons a l ih =>
    rw [findNumPctUs] at h
    split at h
    · rename_i heq
      rw [Option.some.injEq] at h
      exact h ▸ matchNumPctUsAt_chars (a :: l) _ heq
    · exact ih h

theorem not_minus_of_digit_dot {run : List Char}
    (h : ∀ c ∈ run, (c.isDigit || c = '.') = true) : '-' ∉ run := by
  intro hm
  have := h '-' hm
  simp at this

theorem isWs_of_isDigit {c : Char} (h : c.isDigit = true) : isWs c = false := by
  rw [isWs]
  by_contra hw
  simp only [Bool.not_eq_false, Bool.or_eq_true, decide_eq_true_eq] at hw
  rcases hw with ((((h1 | h1) | h1) | h1) | h1) | h1 <;> subst h1 <;> simp [Char.isDigit] at h

theorem dropFirstPct_append (ds : List Char) (h : '%' ∉ ds) :
    dropFirstPct (ds ++ ['%']) = ds := by
  induction ds with
  | nil => rfl
  | cons c l ih =>
    rw [List.cons_append, dropFirstPct]
    have hc : ¬c = '%' := fun hc => h (hc ▸ List.mem_cons_self _ _)
    rw [if_neg hc, ih (fun hm => h (List.mem_cons_of_mem _ hm))]

theorem parseIntJS_digits (ds : List Char) (hne : ds ≠ [])
    (hd : ∀ c ∈ ds, c.isDigit = true) : parseIntJS ds = some (digitsVal ds) := by
  cases ds with
  | nil => exact absurd rfl hne
  | cons c l =>
    have hcd := hd c (List.mem_cons_self _ _)
    have hws := isWs_of_isDigit hcd
    have hdrop : (c :: l).dropWhile isWs = c :: l := by
      rw [List.dropWhile_cons, hws]
      simp
    have hminus : ¬c = '-' := by
      intro hc
      subst hc
      simp [Char.isDigit] at hcd
    have hplus : ¬c = '+' := by
      intro hc
      subst hc
      simp [Char.isDigit] at hcd
    have htake : (c :: l).takeWhile Char.isDigit = c :: l :=
      List.takeWhile_eq_self_iff.mpr hd
    rw [parseIntJS, hdrop]
    dsimp only
    rw [if_neg hminus, if_neg hplus, parseIntCore, htake]
    have : ¬(c :: l).isEmpty = true := by simp
    rw [if_neg this]
    rfl

/-! ## Collector field bounds (lemmas behind claim C3) -/

theorem collectMemoryInfo_pct_bounds (mi fr : CmdResult)
    (h1 : mi.stderr = []) (h2 : mi.stdout ≠ [])
    (h3 : (if fieldNat "MemAvailable:".data mi.stdout = 0 then
            fieldNat "MemFree:".data mi.stdout + fieldNat "Buffers:".data mi.stdout +
              fieldNat "Cached:".data mi.stdout
          else fieldNat "MemAvailable:".data mi.stdout)
        ≤ fieldNat "MemTotal:".data mi.stdout) :
    ∃ p, (collectMemoryInfo mi fr).percentage = some p ∧ 0 ≤ p ∧ p ≤ 100 := by
  obtain ⟨code, stdout, stderr⟩ := mi
  simp only at h1 h2 h3
  subst h1
  rw [collectMemoryInfo]
  simp only [ne_eq, not_true_eq_false, if_false, ite_not]
  rw [if_neg h2]
  set t := fieldNat "MemTotal:".data stdout with hT
  set eff := if fieldNat "MemAvailable:".data stdout = 0 then
      fieldNat "MemFree:".data stdout + fieldNat "Buffers:".data stdout +
        fieldNat "Cached:".data stdout
    else fieldNat "MemAvailable:".data stdout with hE
  have hle : (eff : ℤ) ≤ (t : ℤ) := by exact_mod_cast h3
  have hnn : (0 : ℤ) ≤ (t : ℤ) - (eff : ℤ) := by omega
  have h4 : (t : ℤ) - (eff : ℤ) ≤ (t : ℤ) := by
    have : (0 : ℤ) ≤ (eff : ℤ) := Int.ofNat_nonneg eff
    omega
  exact jsPct_bounds ((t : ℤ) - (eff : ℤ)) (t : ℤ) hnn h4

theorem collectCpuLoad_nonneg (loadRes upRes cpuRes topRes : CmdResult)
    (h1 : '-' ∉ loadRes.stdout) (h3 : '-' ∉ cpuRes.stdout) :
    ∀ v, collectCpuLoad loadRes upRes cpuRes topRes = some v → 0 ≤ v.toRat := by
  intro v h
  rw [collectCpuLoad] at h
  split at h
  · refine parseFloatJS_nonneg _ _ h fun hm => h1 ?_
    exact mem_of_mem_jsTrim ((List.takeWhile_sublist _).mem hm)
  · split at h
    · rename_i cap heq
      split at heq
      · refine parseFloatJS_nonneg _ _ h (not_minus_of_digit_dot ?_)
        exact findLabelRun_chars _ _ _ _ heq
      · exact absurd heq (by simp)
    · split at h
      · rename_i v2 heq2
        rw [Option.some.injEq] at h
        split at heq2
        · have hneg : v2.neg = false := by
            refine parseFloatJS_neg_eq _ _ heq2 fun hm => h3 (mem_of_mem_jsTrim hm)
          exact Dec.toRat_nonneg v (by rw [← h]; exact hneg)
        · exact absurd heq2 (by simp)
      · split at h
        · rename_i cap2 heq3
          rw [Option.map_eq_some'] at h
          obtain ⟨v3, hv3, hd⟩ := h
          split at heq3
          · rw [Option.bind_eq_some] at heq3
            obtain ⟨line, _, hrun⟩ := heq3
            have hneg : v3.neg = false := by
              refine parseFloatJS_neg_eq _ _ hv3
                (not_minus_of_digit_dot (findNumPctUs_chars _ _ hrun))
            exact Dec.toRat_nonneg v (by rw [← hd]; exact hneg)
          · exact absurd heq3 (by simp)
        · rw [Option.some.injEq] at h
          rw [← h]
          exact Dec.toRat_nonneg _ rfl

theorem collectDiskUsage_pct_bounds (stdout ds : List Char)
    (h5 : 4 < (wsTokens (jsTrim stdout)).length)
    (htok : (wsTokens (jsTrim stdout)).get ⟨4, h5⟩ = ds ++ ['%'])
    (hne : ds ≠ []) (hd : ∀ c ∈ ds, c.isDigit = true)
    (hle : digitsVal ds ≤ 100) :
    ∃ p, (collectDiskUsage 0 stdout).percentage = some p ∧ 0 ≤ p ∧ p ≤ 100 := by
  rw [collectDiskUsage]
  rw [if_neg (by simp)]
  rw [dif_neg (by omega)]
  have hpct : '%' ∉ ds := by
    intro hm
    have := hd '%' hm
    simp [Char.isDigit] at this
  have : (wsTokens (jsTrim stdout)).get ⟨4, by omega⟩ = ds ++ ['%'] := htok
  rw [this, dropFirstPct_append ds hpct]
  refine ⟨(digitsVal ds : ℤ), ?_, by positivity, by exact_mod_cast hle⟩
  show parseIntJS ds = some ((digitsVal ds : ℤ))
  exact parseIntJS_digits ds hne hd

theorem meminfo_formula (s : List Char) (fr : CmdResult) (t f a b c : ℕ)
    (hs : s ≠ [])
    (ht : fieldNat "MemTotal:".data s = t)
    (hf : fieldNat "MemFree:".data s = f)
    (ha : fieldNat "MemAvailable:".data s = a)
    (hb : fieldNat "Buffers:".data s = b)
    (hc : fieldNat "Cached:".data s = c)
    (htpos : 0 < t) :
    collectMemoryInfo ⟨0, s, []⟩ fr =
      { total := some (t : ℤ)
        free := some ((if 0 < a then a else f + b + c : ℕ) : ℤ)
        used := some ((t : ℤ) - (if 0 < a then a else f + b + c : ℕ))
        percentage := some
          ⌊((t : ℚ) - ((if 0 < a then a else f + b + c : ℕ) : ℚ)) * 100 / t + 1 / 2⌋ } := by
  have heff : (if a = 0 then f + b + c else a) = (if 0 < a then a else f + b + c) := by
    rcases Nat.eq_zero_or_pos a with h | h
    · simp [h]
    · simp [h, h.ne']
  have ht0 : (t : ℤ) ≠ 0 := by
    exact_mod_cast htpos.ne'
  rw [collectMemoryInfo]
  simp only [ne_eq, not_true_eq_false, if_false, ite_not]
  rw [if_neg hs, ht, hf, ha, hb, hc, heff]
  simp only [jsPct, if_neg ht0, MemoryUsage.mk.injEq, Option.some.injEq]
  refine ⟨trivial, trivial, trivial, ?_⟩
  have htpos2 : (0 : ℤ) < (t : ℤ) := by exact_mod_cast htpos
  rw [jround_eq _ _ htpos2]
  congr 1
  push_cast
  ring

/-! ## Claim theorems: memory parsing and metric field bounds -/

/-- C5: on a non-empty `/proc/meminfo` output with positive MemTotal,
`collectMemoryInfo` computes effectiveFree = MemAvailable if it is
positive, else MemFree+Buffers+Cached; used = MemTotal − effectiveFree;
percentage = round(used/MemTotal·100); and on the seed input with
MemTotal 64000, MemFree 8000, MemAvailable 16000, Buffers 2000,
Cached 4000 it returns total 64000, free 16000, used 48000,
percentage 75. -/
theorem meminfo_parser_spec :
    (∀ (s : List Char) (fr : CmdResult) (t f a b c : ℕ), s ≠ [] →
      fieldNat "MemTotal:".data s = t →
      fieldNat "MemFree:".data s = f →
      fieldNat "MemAvailable:".data s = a →
      fieldNat "Buffers:".data s = b →
      fieldNat "Cached:".data s = c → 0 < t →
      collectMemoryInfo ⟨0, s, []⟩ fr =
        { total := some (t : ℤ)
          free := some ((if 0 < a then a else f + b + c : ℕ) : ℤ)
          used := some ((t : ℤ) - (if 0 < a then a else f + b + c : ℕ))
          percentage := some
            ⌊((t : ℚ) - ((if 0 < a then a else f + b + c : ℕ) : ℚ)) * 100 / t + 1 / 2⌋ }) ∧
    collectMemoryInfo
        ⟨0, ("MemTotal: 64000 kB\nMemFree: 8000 kB\nMemAvailable: 16000 kB\n" ++
          "Buffers: 2000 kB\nCached: 4000 kB").data, []⟩ ⟨0, [], []⟩ =
      { total := some 64000, free := some 16000, used := some 48000, percentage := some 75 } :=
  ⟨meminfo_formula, by decide⟩

/-- Witness for C5: the formula applied to the seed meminfo output. -/
theorem meminfo_parser_spec_witness :
    collectMemoryInfo
        ⟨0, ("MemTotal: 64000 kB\nMemFree: 8000 kB\nMemAvailable: 16000 kB\n" ++
          "Buffers: 2000 kB\nCached: 4000 kB").data, []⟩ ⟨0, [], []⟩ =
      { total := some ((64000 : ℕ) : ℤ)
        free := some (((if 0 < (16000 : ℕ) then (16000 : ℕ) else 8000 + 2000 + 4000) : ℕ) : ℤ)
        used := some (((64000 : ℕ) : ℤ) -
          ((if 0 < (16000 : ℕ) then (16000 : ℕ) else 8000 + 2000 + 4000) : ℕ))
        percentage := some
          ⌊(((64000 : ℕ) : ℚ) -
            (((if 0 < (16000 : ℕ) then (16000 : ℕ) else 8000 + 2000 + 4000) : ℕ) : ℚ)) *
            100 / ((64000 : ℕ) : ℚ) + 1 / 2⌋ } :=
  meminfo_parser_spec.1 _ _ 64000 8000 16000 2000 4000 (by decide) (by decide) (by decide)
    (by decide) (by decide) (by decide) (by decide)

/-- C3 counterexample: the claim "whatever text the remote shell
commands return, memoryUsage.percentage lies in [0,100]" is false: on
a meminfo output reporting MemAvailable larger than MemTotal the
computed percentage is negative. -/
theorem metric_field_bounds_counterexample :
    ∃ p, (collectMemoryInfo
        ⟨0, "MemTotal: 100 kB\nMemAvailable: 200 kB".data, []⟩
        ⟨0, [], []⟩).percentage = some p ∧ p < 0 :=
  ⟨-100, by decide, by decide⟩

/-- C3 (amended): the bounds hold for well-formed shell output — the
memory percentage is in [0,100] whenever the parsed effective free
memory does not exceed MemTotal; the CPU load is non-negative whenever
the loadavg and top outputs contain no minus sign; the disk percentage
is in [0,100] whenever the df Use% column is a digit run of value at
most 100 followed by a percent sign. -/
theorem metric_field_bounds :
    (∀ mi fr : CmdResult, mi.stderr = [] → mi.stdout ≠ [] →
      (if fieldNat "MemAvailable:".data mi.stdout = 0 then
          fieldNat "MemFree:".data mi.stdout + fieldNat "Buffers:".data mi.stdout +
            fieldNat "Cached:".data mi.stdout
        else fieldNat "MemAvailable:".data mi.stdout) ≤ fieldNat "MemTotal:".data mi.stdout →
      ∃ p, (collectMemoryInfo mi fr).percentage = some p ∧ 0 ≤ p ∧ p ≤ 100) ∧
    (∀ loadRes upRes cpuRes topRes : CmdResult,
      '-' ∉ loadRes.stdout → '-' ∉ cpuRes.stdout →
      ∀ v, collectCpuLoad loadRes upRes cpuRes topRes = some v → 0 ≤ v.toRat) ∧
    (∀ stdout ds : List Char, ∀ h5 : 4 < (wsTokens (jsTrim stdout)).length,
      (wsTokens (jsTrim stdout)).get ⟨4, h5⟩ = ds ++ ['%'] → ds ≠ [] →
      (∀ c ∈ ds, c.isDigit = true) → digitsVal ds ≤ 100 →
      ∃ p, (collectDiskUsage 0 stdout).percentage = some p ∧ 0 ≤ p ∧ p ≤ 100) :=
  ⟨collectMemoryInfo_pct_bounds, collectCpuLoad_nonneg, collectDiskUsage_pct_bounds⟩

/-- Witness for C3: the three bounds at concrete well-formed outputs. -/
theorem metric_field_bounds_witness :
    (∃ p, (collectMemoryInfo
        ⟨0, ("MemTotal: 64000 kB\nMemFree: 8000 kB\nMemAvailable: 16000 kB\n" ++
          "Buffers: 2000 kB\nCached: 4000 kB").data, []⟩
        ⟨0, [], []⟩).percentage = some p ∧ 0 ≤ p ∧ p ≤ 100) ∧
    (0 : ℚ) ≤ Dec.toRat ⟨false, 15, -2⟩ ∧
    (∃ p, (collectDiskUsage 0 "rootfs 98.3M 49.1M 49.2M 50% /".data).percentage = some p ∧
      0 ≤ p ∧ p ≤ 100) :=
  ⟨metric_field_bounds.1 _ _ (by decide) (by decide) (by decide),
    metric_field_bounds.2.1 ⟨0, "0.15 0.05 0.01 1/123 456".data, []⟩ ⟨0, [], []⟩ ⟨0, [], []⟩
      ⟨0, [], []⟩ (by decide) (by decide) ⟨false, 15, -2⟩ (by decide),
    metric_field_bounds.2.2 "rootfs 98.3M 49.1M 49.2M 50% /".data "50".data (by decide)
      (by decide) (by decide) (by decide) (by decide)⟩

/-! ## Claim theorems: scan jobs and candidate IPs -/

/-- C2: starting from creation (status pending, progress 0), the
sequence of job states produced by the updates `startScanJob` issues —
for every outcome of the three awaited scan calls, including thrown
errors — has non-decreasing progress, and every state with a terminal
status (completed or error) has progress 100. -/
theorem scanjob_progress_monotone (id subnet : List Char)
    (sp q : Except (List Char) (List (List Char))) (fp : Except (List Char) ScanResults) :
    List.Chain' (fun s1 s2 => s1.progress ≤ s2.progress)
      (List.scanl updateScanJob (createScanJob id subnet)
        (startScanJobPatches (createScanJob id subnet) sp q fp)) ∧
    ∀ s ∈ List.scanl updateScanJob (createScanJob id subnet)
        (startScanJobPatches (createScanJob id subnet) sp q fp),
      (s.status = .completed ∨ s.status = .error) → s.progress = 100 := by
  rcases sp with e1 | s1
  · simp [startScanJobPatches, createScanJob, errorPatch, updateScanJob, List.scanl, List.Chain']
  · rcases q with e2 | s2
    · simp [startScanJobPatches, createScanJob, errorPatch, updateScanJob, List.scanl,
        List.Chain']
    · by_cases he : (s1 ++ s2).eraseDups.isEmpty = true
      · simp [startScanJobPatches, createScanJob, errorPatch, updateScanJob, List.scanl,
          List.Chain', he]
      · rcases fp with e3 | r3
        · simp [startScanJobPatches, createScanJob, errorPatch, updateScanJob, List.scanl,
            List.Chain', he]
        · simp [startScanJobPatches, createScanJob, errorPatch, updateScanJob, List.scanl,
            List.Chain', he]

/-- Witness for C2: the progress chain of a successful scan over one
found address. -/
theorem scanjob_progress_monotone_witness :
    List.Chain' (fun s1 s2 => s1.progress ≤ s2.progress)
      (List.scanl updateScanJob (createScanJob "scan_1_ab".data "192.168.1.".data)
        (startScanJobPatches (createScanJob "scan_1_ab".data "192.168.1.".data)
          (.ok ["192.168.1.36".data]) (.ok [])
          (.ok { devices := [], partialScan := false }))) :=
  (scanjob_progress_monotone "scan_1_ab".data "192.168.1.".data
    (.ok ["192.168.1.36".data]) (.ok []) (.ok { devices := [], partialScan := false })).1

theorem foldl_mem_inv {α : Type} (P : List Char → Prop)
    (f : List (List Char) → α → List (List Char))
    (hf : ∀ acc x ip, ip ∈ f acc x → ip ∈ acc ∨ P ip)
    (l : List α) (acc : List (List Char)) (hacc : ∀ ip ∈ acc, P ip) :
    ∀ ip ∈ l.foldl f acc, P ip := by
  induction l generalizing acc with
  | nil => exact hacc
  | cons x xs ih =>
    intro ip hip
    refine ih (f acc x) (fun ip2 hip2 => ?_) ip hip
    rcases hf acc x ip2 hip2 with h | h
    · exact hacc ip2 h
    · exact h

theorem probeAny_exists {probe : Probe} {ip : List Char} {ports : List ℕ}
    (h : probeAny probe ip ports = true) : ∃ port, probe ip port = true := by
  obtain ⟨port, _, hp⟩ := List.any_eq_true.mp h
  exact ⟨port, hp⟩

theorem comprehensiveSubnetScan_sound (probe : Probe) (subnet : List Char) :
    ∀ ip ∈ comprehensiveSubnetScan probe subnet,
      (∃ port, probe ip port = true) ∨ ip = fmtSubnet subnet ++ "36".data := by
  rw [comprehensiveSubnetScan]
  refine foldl_mem_inv _ _ (fun acc i ip hip => ?_) _ _ (fun ip hip => ?_)
  · by_cases hcond : probeAny probe (fmtSubnet subnet ++ (Nat.repr i).data) [22, 80, 443] = true ∧
        ¬acc.contains (fmtSubnet subnet ++ (Nat.repr i).data) = true
    · rw [if_pos hcond] at hip
      rcases List.mem_append.mp hip with h | h
      · exact Or.inl h
      · right
        left
        obtain rfl := List.mem_singleton.mp h
        exact probeAny_exists hcond.1
    · rw [if_neg hcond] at hip
      exact Or.inl hip
  · split_ifs at hip <;> simp at hip <;> exact Or.inr hip

theorem quickRouterScan_sound (probe : Probe) (subnet : List Char) :
    ∀ ip ∈ quickRouterScan probe subnet, ∃ port, probe ip port = true := by
  rw [quickRouterScan]
  have hstep1 : ∀ ip ∈ (if probeAny probe (subnet ++ "36".data) [22, 80, 443, 8080, 23] then
      [subnet ++ "36".data] else ([] : List (List Char))), ∃ port, probe ip port = true := by
    split_ifs with hp
    · intro ip hip
      obtain rfl := List.mem_singleton.mp hip
      exact probeAny_exists hp
    · intro ip hip
      simp at hip
  generalize hbase : (if probeAny probe (subnet ++ "36".data) [22, 80, 443, 8080, 23] = true then
      [subnet ++ "36".data] else ([] : List (List Char))) = base at hstep1 ⊢
  have hstep2 := foldl_mem_inv (fun ip => ∃ port, probe ip port = true)
    (fun acc ip =>
      if probeAny probe (subnet ++ ip.data) [22, 80, 443] = true ∧
          ¬acc.contains (subnet ++ ip.data) = true then
        acc ++ [subnet ++ ip.data]
      else acc)
    (fun acc x ip hip => by
      have hb : ip ∈ (if probeAny probe (subnet ++ x.data) [22, 80, 443] = true ∧
          ¬acc.contains (subnet ++ x.data) = true then
            acc ++ [subnet ++ x.data] else acc) := hip
      by_cases hcond : probeAny probe (subnet ++ x.data) [22, 80, 443] = true ∧
          ¬acc.contains (subnet ++ x.data) = true
      · rw [if_pos hcond] at hb
        rcases List.mem_append.mp hb with h | h
        · exact Or.inl h
        · obtain rfl := List.mem_singleton.mp h
          exact Or.inr (probeAny_exists hcond.1)
      · rw [if_neg hcond] at hb
        exact Or.inl hb)
    ["1", "254", "100", "101", "102", "2", "99", "253", "250", "252", "10", "20", "30", "50"]
    base hstep1
  generalize hmid : List.foldl
      (fun acc ip =>
        if probeAny probe (subnet ++ ip.data) [22, 80, 443] = true ∧
            ¬acc.contains (subnet ++ ip.data) = true then
          acc ++ [subnet ++ ip.data]
        else acc)
      base
      ["1", "254", "100", "101", "102", "2", "99", "253", "250", "252", "10", "20", "30", "50"]
      = mid at hstep2 ⊢
  split_ifs with hlen
  · refine foldl_mem_inv _ _ (fun acc i ip2 hip2 => ?_) _ _ hstep2
    have hb : ip2 ∈ (if probe (subnet ++ (Nat.repr i).data) 22 = true ∧
        ¬acc.contains (subnet ++ (Nat.repr i).data) = true then
          acc ++ [subnet ++ (Nat.repr i).data] else acc) := hip2
    by_cases hcond : probe (subnet ++ (Nat.repr i).data) 22 = true ∧
        ¬acc.contains (subnet ++ (Nat.repr i).data) = true
    · rw [if_pos hcond] at hb
      rcases List.mem_append.mp hb with h | h
      · exact Or.inl h
      · obtain rfl := List.mem_singleton.mp h
        exact Or.inr ⟨22, hcond.1⟩
    · rw [if_neg hcond] at hb
      exact Or.inl hb
  · exact hstep2

/-- C4 counterexample: with a probe oracle that answers nothing, the
comprehensive scan still emits `<subnet>.36`, an address that answered
no probe; the Scanner takes no hinted-host input, so the claim's
hinted list defaults to empty and the claim fails at this output. -/
theorem scanner_candidate_counterexample :
    comprehensiveSubnetScan (fun _ _ => false) "192.168.1.".data = ["192.168.1.36".data] ∧
    ∀ port : ℕ, (fun _ _ => false : Probe) "192.168.1.36".data port = false :=
  ⟨by decide, fun _ => rfl⟩

/-- C4 (amended): every IP in a candidate set produced by the Scanner
answered at least one TCP probe, or is the hard-coded priority host
`<subnet>.36` (the source has no hinted-host list; `.36` is its
built-in hint). -/
theorem scanner_candidate_soundness (probe : Probe) (subnet : List Char) :
    (∀ ip ∈ comprehensiveSubnetScan probe subnet,
      (∃ port, probe ip port = true) ∨ ip = fmtSubnet subnet ++ "36".data) ∧
    (∀ ip ∈ quickRouterScan probe subnet, ∃ port, probe ip port = true) :=
  ⟨comprehensiveSubnetScan_sound probe subnet, quickRouterScan_sound probe subnet⟩

/-- Witness for C4: the soundness disjunction evaluated at a probe
that answers SSH everywhere. -/
theorem scanner_candidate_soundness_witness :
    (∃ port, (fun _ p => p == 22 : Probe) "10.0.0.34".data port = true) ∨
      "10.0.0.34".data = fmtSubnet "10.0.0.".data ++ "36".data :=
  (scanner_candidate_soundness (fun _ p => p == 22) "10.0.0.".data).1
    "10.0.0.34".data (by decide)

/-! ## Claim theorems: degraded fingerprinting -/

/-- C7 counterexample: a candidate host (other than the special `.36`)
whose shell session fails entirely is omitted from the devices list —
no degraded DiscoveredDevice is returned for it. -/
theorem scanner_degraded_counterexample :
    ¬∃ d ∈ (scanForOpenWrtDevices (fun _ => none) (fun _ => none) (fun _ _ => false)
        "10.0.0.".data ["10.0.0.5".data]).1, d.ipAddress = "10.0.0.5".data := by
  decide

/-- C7 (amended): only the hard-coded special host `<subnet>.36` is
retained when its fingerprinting fails, as a placeholder device
`{hostname "Unknown Router", isOpenWrt true, macAddress null, note …}`
without an `sshSuccess` flag; every other candidate whose shell
session fails entirely (quick check yields null) is omitted from the
devices list. -/
theorem scanner_degraded_amended
    (ext quick : List Char → Option DiscoveredDevice) (probe : Probe)
    (subnet : List Char) (activeIPs : List (List Char))
    (hq : ∀ s d, quick s = some d → d.ipAddress = s)
    (hx : ∀ s d, ext s = some d → d.ipAddress = s) :
    (activeIPs.contains (fmtSubnet subnet ++ "36".data) = true →
      ext (fmtSubnet subnet ++ "36".data) = none →
      placeholderDevice (fmtSubnet subnet ++ "36".data) ∈
        (scanForOpenWrtDevices ext quick probe subnet activeIPs).1) ∧
    (∀ ip ∈ activeIPs, ip ≠ fmtSubnet subnet ++ "36".data → quick ip = none →
      ∀ d ∈ (scanForOpenWrtDevices ext quick probe subnet activeIPs).1, d.ipAddress ≠ ip) := by
  constructor
  · intro hc hext
    have hne : activeIPs.isEmpty = false := by
      cases activeIPs with
      | nil => simp at hc
      | cons a l => rfl
    simp only [scanForOpenWrtDevices, hne, Bool.false_eq_true, if_false, hc, if_true, hext]
    exact List.mem_append_left _ (List.mem_singleton.mpr rfl)
  · intro ip hip hipne hquick d hd
    have hne : activeIPs.isEmpty = false := by
      cases activeIPs with
      | nil => simp at hip
      | cons a l => rfl
    by_cases hc : activeIPs.contains (fmtSubnet subnet ++ "36".data) = true
    · simp only [scanForOpenWrtDevices, hne, Bool.false_eq_true, if_false, hc, if_true] at hd
      rcases hext : ext (fmtSubnet subnet ++ "36".data) with _ | d2 <;>
          rw [hext] at hd <;> rcases List.mem_append.mp hd with h | h
      · obtain rfl := List.mem_singleton.mp h
        simpa [placeholderDevice] using fun he => hipne he.symm
      · obtain ⟨a, ha, hqa⟩ := List.mem_filterMap.mp h
        rw [hq _ _ hqa]
        intro he
        subst he
        exact absurd hqa (by rw [hquick]; simp)
      · obtain rfl := List.mem_singleton.mp h
        rw [hx _ _ hext]
        exact fun he => hipne he.symm
      · obtain ⟨a, ha, hqa⟩ := List.mem_filterMap.mp h
        rw [hq _ _ hqa]
        intro he
        subst he
        exact absurd hqa (by rw [hquick]; simp)
    · simp only [scanForOpenWrtDevices, hne, Bool.false_eq_true, if_false, hc, if_true] at hd
      simp only [List.nil_append] at hd
      obtain ⟨a, ha, hqa⟩ := List.mem_filterMap.mp hd
      rw [hq _ _ hqa]
      intro he
      subst he
      exact absurd hqa (by rw [hquick]; simp)

/-- Witness for C7: the placeholder device for a failing special host. -/
theorem scanner_degraded_amended_witness :
    placeholderDevice (fmtSubnet "10.0.0.".data ++ "36".data) ∈
      (scanForOpenWrtDevices (fun _ => none) (fun _ => none) (fun _ _ => false)
        "10.0.0.".data ["10.0.0.36".data]).1 :=
  (scanner_degraded_amended (fun _ => none) (fun _ => none) (fun _ _ => false)
    "10.0.0.".data ["10.0.0.36".data]
    (fun _ _ h => Option.noConfusion h) (fun _ _ h => Option.noConfusion h)).1
    (by decide) rfl

/-! ## Claim theorems: test-connection endpoint -/

/-- C8 counterexample: the test-connection response carries no
`details` object at all — for a router whose SSH port probe returns
closed the body is `{success:false, message:"Connection failed"}`
with `details` absent, so `details.portOpen`/`details.sshConnection`
do not exist. -/
theorem testconnection_counterexample :
    (testConnectionEndpoint (fun _ _ => false) true ⟨0, [], []⟩ ⟨0, [], []⟩ ⟨0, [], []⟩
        { id := 1, name := "r1".data, ipAddress := some "10.0.0.42".data,
          status := "unknown".data, lastSeen := none } 0).1.details = none ∧
    (testConnectionEndpoint (fun _ _ => false) true ⟨0, [], []⟩ ⟨0, [], []⟩ ⟨0, [], []⟩
        { id := 1, name := "r1".data, ipAddress := some "10.0.0.42".data,
          status := "unknown".data, lastSeen := none } 0).1.success = some false := by
  constructor <;> decide

/-- C8 (amended): for a router whose SSH port probe returns closed,
POST /routers/:id/test-connection responds 200 with body
`{success:false, message:"Connection failed"}` (no details object)
and sets the router's status to offline. -/
theorem testconnection_closed_port (probe : Probe) (sshOk : Bool)
    (echoRes hostRes verRes : CmdResult) (r : RouterRec) (now : ℕ) (ip : List Char)
    (hip : r.ipAddress = some ip) (hclosed : probe ip 22 = false) :
    testConnectionEndpoint probe sshOk echoRes hostRes verRes r now =
      ({ httpStatus := 200, success := some false, message := "Connection failed".data,
         details := none },
        some { r with status := "offline".data }) := by
  rw [testConnectionEndpoint, sshTestConnection, hip]
  simp only [hclosed, Bool.not_false, if_true, testConnectionController, Bool.false_eq_true,
    if_false]
  rw [hip]

/-- Witness for C8: the closed-port response for a concrete router. -/
theorem testconnection_closed_port_witness :
    testConnectionEndpoint (fun _ _ => false) true ⟨0, [], []⟩ ⟨0, [], []⟩ ⟨0, [], []⟩
        { id := 1, name := "r1".data, ipAddress := some "10.0.0.42".data,
          status := "unknown".data, lastSeen := none } 0 =
      ({ httpStatus := 200, success := some false, message := "Connection failed".data,
         details := none },
        some { id := 1, name := "r1".data, ipAddress := some "10.0.0.42".data,
               status := "offline".data, lastSeen := none }) :=
  testconnection_closed_port (fun _ _ => false) true ⟨0, [], []⟩ ⟨0, [], []⟩ ⟨0, [], []⟩
    { id := 1, name := "r1".data, ipAddress := some "10.0.0.42".data,
      status := "unknown".data, lastSeen := none } 0 "10.0.0.42".data rfl rfl

/-! ## Claim theorems: collection of an unreachable router -/

/-- C1: for a router whose SSH port does not answer the pre-probe,
`collectMetrics` does return the all-zero sentinel with error
"Device not reachable" without reaching `createSSHClient` — but the
scheduler's `collectAllMetrics` then sets the router's status to
"online" (not offline) and persists the sentinel as a Metric row,
because its `!metrics` guard never fires on the always-truthy
sentinel object. -/
theorem collector_unreachable_codebug :
    (collectMetrics envUnreachable).1 = sentinelMetrics "Device not reachable".data ∧
    (collectMetrics envUnreachable).2 = false ∧
    (collectAllMetricsRouter envUnreachable
        { id := 7, name := "r7".data, monitoringEnabled := true,
          status := "unknown".data, lastSeen := none } 5).1.status = "online".data ∧
    (collectAllMetricsRouter envUnreachable
        { id := 7, name := "r7".data, monitoringEnabled := true,
          status := "unknown".data, lastSeen := none } 5).2 =
      [{ routerId := 7, metrics := sentinelMetrics "Device not reachable".data,
         timestamp := 5 }] := by
  refine ⟨rfl, rfl, rfl, rfl⟩

/-! ## Claim theorems: add-multiple partitioning -/

theorem processDevice_count (err : Bool) (st : AddState) (d : DevicePayload) :
    (processDevice err st d).added.length + (processDevice err st d).updated.length +
        (processDevice err st d).failed.length =
      st.added.length + st.updated.length + st.failed.length + 1 := by
  rw [processDevice]
  split_ifs <;> try (simp; omega)
  all_goals (split <;> simp <;> omega)

theorem addMultipleLoop_count (devices : List DevicePayload) :
    ∀ (errs : List Bool) (st : AddState),
      (addMultipleLoop devices errs st).added.length +
          (addMultipleLoop devices errs st).updated.length +
          (addMultipleLoop devices errs st).failed.length =
        st.added.length + st.updated.length + st.failed.length + devices.length := by
  induction devices with
  | nil =>
    intro errs st
    simp [addMultipleLoop]
  | cons d ds ih =>
    intro errs st
    rw [addMultipleLoop, ih, processDevice_count]
    simp
    omega

/-- C9: every device of a non-empty add-multiple request lands in
exactly one of the added/updated/failed lists, whatever the router
table, id counter and injected storage errors are, so
summary.added + summary.updated + summary.failed = summary.total =
devices.length. -/
theorem addMultiple_partition (errs : List Bool) (db0 : List DbRouter) (nid : ℕ)
    (devices : List DevicePayload) (h : devices ≠ []) :
    ∃ out, addMultipleRouters errs db0 nid devices = some out ∧
      out.summary.added + out.summary.updated + out.summary.failed = out.summary.total ∧
      out.summary.total = devices.length := by
  rw [addMultipleRouters, if_neg (by simpa using h)]
  refine ⟨_, rfl, ?_, rfl⟩
  simpa using addMultipleLoop_count devices errs
    { db := db0, nextId := nid, added := [], updated := [], failed := [] }

/-- Witness for C9: the partition holds on a concrete two-device
request against an empty table. -/
theorem addMultiple_partition_witness :
    ∃ out, addMultipleRouters [] [] 1
        [{ ipAddress := some "10.0.0.5".data, username := some "root".data,
           password := some "x".data },
         { hostname := some "ap2".data }] = some out ∧
      out.summary.added + out.summary.updated + out.summary.failed = out.summary.total ∧
      out.summary.total = 2 :=
  addMultiple_partition [] [] 1
    [{ ipAddress := some "10.0.0.5".data, username := some "root".data,
       password := some "x".data },
     { hostname := some "ap2".data }] (by decide)

end Openwisp
